import Mathlib

/-!
# Haiku joystick driver (`src/joystick/haiku/SDL_haikujoystick.cc`)

A shallow embedding of the driver: the file-level statics (`SDL_joyport`,
`SDL_joyname`, `numjoysticks`), the heap blocks the driver allocates and
releases, and the calls it makes into the generic joystick layer are fields of
one explicit `State`; the native `BJoystick` service and the allocator's
failures are an environment `Env`.  Pointers are block identities; a pointer is
an `Option Nat`, `none` being `NULL`.
-/

namespace HaikuJoystick

/-- The maximum number of joysticks we'll detect (`#define MAX_JOYSTICKS 16`). -/
def MAX_JOYSTICKS : Nat := 16

/-- A non-null `char *`: the block it points to and the characters stored there. -/
structure CString where
  addr : Nat
  text : String
deriving DecidableEq

/-- A non-null scratch array: the block and its cells. -/
structure Buffer (α : Type) where
  addr : Nat
  cells : List α
deriving DecidableEq

/-- What the driver cannot control: the native `BJoystick` service and the allocator.
Ports are addressed by the name handed to `BJoystick::Open` (a `char *`, possibly `NULL`). -/
structure Env where
  /-- `BJoystick::CountDevices()`, an `int32`. -/
  CountDevices : Int
  /-- `BJoystick::GetDeviceName(i, name)`: `some name` when it answers `B_OK`. -/
  GetDeviceName : Nat → Option String
  /-- `BJoystick::Open(name) != B_ERROR`. -/
  Open : Option String → Bool
  /-- `BJoystick::GetControllerName` of the stick opened on a port. -/
  GetControllerName : String → String
  /-- `BJoystick::CountAxes()` of the stick opened on a port. -/
  CountAxes : Option String → Nat
  /-- `BJoystick::CountHats()` of the stick opened on a port. -/
  CountHats : Option String → Nat
  /-- `BJoystick::CountButtons()` of the stick opened on a port. -/
  CountButtons : Option String → Nat
  /-- Text computed by `SDL_CreateJoystickName(0, 0, NULL, stick_name)` (defined outside this file). -/
  SDL_CreateJoystickName : String → String
  /-- Whether the allocation request that would create block `n` fails. -/
  allocFails : Nat → Bool
  /-- The message the allocator leaves in the error slot when a request fails. -/
  oomMessage : String
  /-- Successive readings of the nanosecond clock `SDL_GetTicksNS()`. -/
  ticks : Nat → Nat

/-- The process state the driver reads and writes. -/
structure State where
  /-- `static char *SDL_joyport[MAX_JOYSTICKS]`. -/
  SDL_joyport : List (Option CString)
  /-- `static char *SDL_joyname[MAX_JOYSTICKS]`. -/
  SDL_joyname : List (Option CString)
  /-- `static int numjoysticks`. -/
  numjoysticks : Nat
  /-- The identity the next heap block gets; also the number of requests made so far. -/
  next : Nat
  /-- Blocks allocated and not yet released. -/
  live : List Nat
  /-- Every block handed to `SDL_free` or `delete`, in call order. -/
  released : List Nat
  /-- The error slot written by `SDL_SetError`. -/
  error : Option String
  /-- Payloads of the `SDL_PrivateJoystickAdded` calls, in call order. -/
  added : List Nat
  /-- Native handles on which `BJoystick::Close()` was called through a session, in call order. -/
  closed : List Nat
  /-- Native handles on which `EnableCalibration()` was called, in call order. -/
  calibrated : List Nat
  /-- Number of clock readings taken so far. -/
  reads : Nat

/-- Modelled from the spec: `SDL_calloc` is defined outside this file. A request either
fails, returning `NULL` and leaving the allocator's out-of-memory message in the error
slot (spec 4.2 and 7: an allocation failure is propagated as a failure "plus a descriptive
message"), or returns a fresh block that becomes live. -/
def SDL_calloc (env : Env) (st : State) : Option Nat × State :=
  if env.allocFails st.next then
    (none, { st with next := st.next + 1, error := some env.oomMessage })
  else
    (some st.next, { st with next := st.next + 1, live := st.next :: st.live })

/-- Modelled from the spec: `SDL_strdup` is defined outside this file. It records a copy
of `s` ("records its native path", spec 4.1) in a fresh block, or returns `NULL` when the
allocation fails. -/
def SDL_strdup (env : Env) (st : State) (s : String) : Option CString × State :=
  ((SDL_calloc env st).1.map (fun a => { addr := a, text := s }), (SDL_calloc env st).2)

/-- Modelled from the spec: `SDL_CreateJoystickName` is defined outside this file. The call
`SDL_CreateJoystickName(0, 0, NULL, stick_name)` returns a fresh block holding the display
name "derived from the native controller-name query" (spec 4.1), or `NULL` when the
allocation fails. -/
def SDL_CreateJoystickName (env : Env) (st : State) (stick_name : String) :
    Option CString × State :=
  ((SDL_calloc env st).1.map (fun a => { addr := a, text := env.SDL_CreateJoystickName stick_name }),
   (SDL_calloc env st).2)

/-- `new BJoystick`: a fresh block for the native handle (`new` does not return `NULL`). -/
def newBJoystick (st : State) : Nat × State :=
  (st.next, { st with next := st.next + 1, live := st.next :: st.live })

/-- Modelled from the spec: `SDL_free` is defined outside this file. `SDL_free(p)` and
`delete p` "release" the block `p` (spec 4.4, 4.5) and do nothing for `NULL`; every release
is logged, so a block released twice shows up twice. -/
def SDL_free (p : Option Nat) (st : State) : State :=
  match p with
  | none => st
  | some a => { st with live := st.live.erase a, released := st.released ++ [a] }

/-- Modelled from the spec: `SDL_PrivateJoystickAdded` is defined outside this file. The
call is the "device added" notification to the generic input subsystem (spec 4.1); its
payload is logged. -/
def SDL_PrivateJoystickAdded (instance_id : Nat) (st : State) : State :=
  { st with added := st.added ++ [instance_id] }

/-! ## Enumeration -/

/-- Body of the `for` loop of `HAIKU_JoystickInit` for port `i`. -/
def initBody (env : Env) (i : Nat) (st : State) : State :=
  match env.GetDeviceName i with
  | some name =>
    if env.Open (some name) then
      let stick_name := env.GetControllerName name
      let st1 := (SDL_strdup env st name).2
      let st2 := { st1 with
        SDL_joyport := st1.SDL_joyport.set st1.numjoysticks (SDL_strdup env st name).1 }
      let st3 := (SDL_CreateJoystickName env st2 stick_name).2
      let st4 := { st3 with
        SDL_joyname := st3.SDL_joyname.set st3.numjoysticks
          (SDL_CreateJoystickName env st2 stick_name).1 }
      let st5 := { st4 with numjoysticks := st4.numjoysticks + 1 }
      SDL_PrivateJoystickAdded st5.numjoysticks st5
    else st
  | none => st

/-- The loop `for (i = ..; (numjoysticks < MAX_JOYSTICKS) && (i < nports); ++i)`;
the first argument is `nports - i`. -/
def initLoop (env : Env) : Nat → Nat → State → State
  | 0, _, st => st
  | r + 1, i, st =>
    if st.numjoysticks < MAX_JOYSTICKS then initLoop env r (i + 1) (initBody env i st)
    else st

/-- `HAIKU_JoystickInit`: the returned flag and the state afterwards. -/
def HAIKU_JoystickInit (env : Env) (st : State) : Bool × State :=
  let nports := env.CountDevices
  let st0 := { st with
    numjoysticks := 0
    SDL_joyport := List.replicate MAX_JOYSTICKS none
    SDL_joyname := List.replicate MAX_JOYSTICKS none }
  (true, initLoop env nports.toNat 0 st0)

/-- `HAIKU_JoystickGetCount`. -/
def HAIKU_JoystickGetCount (st : State) : Nat :=
  st.numjoysticks

/-- `HAIKU_JoystickGetDeviceInstanceID`: `device_index + 1` as an `SDL_JoystickID` (`Uint32`). -/
def HAIKU_JoystickGetDeviceInstanceID (device_index : Nat) : Nat :=
  (device_index + 1) % 2 ^ 32

/-- Port `i` can be named and opened by the probe of `HAIKU_JoystickInit`. -/
def connectable (env : Env) (i : Nat) : Bool :=
  match env.GetDeviceName i with
  | some name => env.Open (some name)
  | none => false

/-- Number of ports among the `CountDevices` reported ones that can be named and opened. -/
def connectableCount (env : Env) : Nat :=
  ((List.range env.CountDevices.toNat).filter (connectable env)).length

/-! ## Sessions -/

/-- Modelled from the spec: the `SDL_HAT_*` constants are defined outside this file. They
are the nine values of "the portable 8-direction-plus-center representation" (spec 2),
named as in the source. -/
inductive SDL_Hat where
  | SDL_HAT_CENTERED
  | SDL_HAT_UP
  | SDL_HAT_RIGHTUP
  | SDL_HAT_RIGHT
  | SDL_HAT_RIGHTDOWN
  | SDL_HAT_DOWN
  | SDL_HAT_LEFTDOWN
  | SDL_HAT_LEFT
  | SDL_HAT_LEFTUP
deriving DecidableEq

open SDL_Hat

/-- `static const Uint8 hat_map[9]`. -/
def hat_map : List SDL_Hat :=
  [ SDL_HAT_CENTERED,
    SDL_HAT_UP,
    SDL_HAT_RIGHTUP,
    SDL_HAT_RIGHT,
    SDL_HAT_RIGHTDOWN,
    SDL_HAT_DOWN,
    SDL_HAT_LEFTDOWN,
    SDL_HAT_LEFT,
    SDL_HAT_LEFTUP ]

/-- `struct joystick_hwdata`, together with the block it lives in. The record exists once
its `stick` field is assigned; `SDL_calloc` zero-fills the two array pointers. -/
structure joystick_hwdata where
  addr : Nat
  stick : Nat
  new_hats : Option (Buffer Nat)
  new_axes : Option (Buffer Int)
deriving DecidableEq

/-- The fields of `SDL_Joystick` the driver touches. `hwdata` keeps the pointer value and
what it points to; releasing the block does not change the pointer. -/
structure SDL_Joystick where
  hwdata : Option joystick_hwdata
  naxes : Nat
  nhats : Nat
  nbuttons : Nat
deriving DecidableEq

/-- Modelled from the spec: `SDL_SetError` is defined outside this file. It stores the
"descriptive error" (spec 4.2) in the error slot; the call itself evaluates to `false`. -/
def SDL_SetError (msg : String) (st : State) : State :=
  { st with error := some msg }

/-- `HAIKU_JoystickClose`. -/
def HAIKU_JoystickClose (joystick : SDL_Joystick) (st : State) : State :=
  match joystick.hwdata with
  | some hwdata =>
    let st1 := { st with closed := st.closed ++ [hwdata.stick] }
    let st2 := SDL_free (some hwdata.stick) st1
    let st3 := SDL_free (hwdata.new_hats.map (fun b => b.addr)) st2
    let st4 := SDL_free (hwdata.new_axes.map (fun b => b.addr)) st3
    SDL_free (some hwdata.addr) st4
  | none => st

/-- `HAIKU_JoystickOpen`: the returned flag, the joystick object and the state afterwards;
`none` when `device_index` reads past the end of `SDL_joyport`. -/
def HAIKU_JoystickOpen (env : Env) (st : State) (joystick : SDL_Joystick) (device_index : Nat) :
    Option (Bool × SDL_Joystick × State) :=
  match (SDL_calloc env st).1 with
  | none => some (false, { joystick with hwdata := none }, (SDL_calloc env st).2)
  | some a =>
    let st1 := (SDL_calloc env st).2
    let stick := (newBJoystick st1).1
    let st2 := (newBJoystick st1).2
    let hw1 : joystick_hwdata := { addr := a, stick := stick, new_hats := none, new_axes := none }
    let joystick1 := { joystick with hwdata := some hw1 }
    match st2.SDL_joyport[device_index]? with
    | none => none
    | some path =>
      let port := path.map (fun p => p.text)
      if !env.Open port then
        some (false, joystick1,
          SDL_SetError "Unable to open joystick" (HAIKU_JoystickClose joystick1 st2))
      else
        let st3 := { st2 with calibrated := st2.calibrated ++ [stick] }
        let joystick2 := { joystick1 with
          nbuttons := env.CountButtons port
          naxes := env.CountAxes port
          nhats := env.CountHats port }
        let new_axes : Option (Buffer Int) := (SDL_calloc env st3).1.map
          (fun b => { addr := b, cells := List.replicate joystick2.naxes 0 })
        let st4 := (SDL_calloc env st3).2
        let new_hats : Option (Buffer Nat) := (SDL_calloc env st4).1.map
          (fun b => { addr := b, cells := List.replicate joystick2.nhats 0 })
        let st5 := (SDL_calloc env st4).2
        let joystick3 := { joystick2 with
          hwdata := some { hw1 with new_axes := new_axes, new_hats := new_hats } }
        if new_hats.isNone || new_axes.isNone then
          some (false, joystick3, HAIKU_JoystickClose joystick3 st5)
        else
          some (true, joystick3, st5)

/-! ## Polling -/

/-- What `BJoystick::Update()` fetched from the device: the axis values (`int16`), the hat
codes (`uint8`) and the button bitmask. -/
structure StickState where
  axes : List Int
  hats : List Nat
  buttons : Nat

/-- A call received by the generic joystick layer through `SDL_SendJoystickAxis`,
`SDL_SendJoystickHat` or `SDL_SendJoystickButton`: the timestamp, the 8-bit index and the
value. -/
inductive Event where
  | axis (timestamp : Nat) (index : Nat) (value : Int)
  | hat (timestamp : Nat) (index : Nat) (value : SDL_Hat)
  | button (timestamp : Nat) (index : Nat) (down : Bool)
deriving DecidableEq

/-- The timestamp an event carries. -/
def Event.timestamp : Event → Nat
  | .axis t _ _ => t
  | .hat t _ _ => t
  | .button t _ _ => t

/-- Whether an event is a button event. -/
def Event.isButton : Event → Bool
  | .button _ _ _ => true
  | _ => false

/-- `GetAxisValues(buf)` / `GetHatValues(buf)`: the native values are stored from the start
of the array; `none` when they do not fit. -/
def Buffer.fill {α : Type} (buf : Buffer α) (vals : List α) : Option (Buffer α) :=
  if vals.length ≤ buf.cells.length then
    some { buf with cells := vals ++ buf.cells.drop vals.length }
  else none

/-- Modelled from the spec: `SDL_GetTicksNS` is defined outside this file. Each call takes
the next reading of the clock (the "capture timestamp", spec 4.3): the reading and the
state afterwards. -/
def SDL_GetTicksNS (env : Env) (st : State) : Nat × State :=
  (env.ticks st.reads, { st with reads := st.reads + 1 })

/-- Modelled from the spec: `SDL_SendJoystickAxis` is declared in `../SDL_joystick_c.h`,
outside this file. It delivers the axis-motion event (spec 4.3); its `axis` parameter is a
`Uint8`, so the `int` loop counter passed to it is narrowed modulo 256. -/
def SDL_SendJoystickAxis (timestamp : Nat) (axis : Nat) (value : Int) : Event :=
  Event.axis timestamp (axis % 256) value

/-- Modelled from the spec: `SDL_SendJoystickHat` is declared in `../SDL_joystick_c.h`,
outside this file. It delivers the hat-state event (spec 4.3); its `hat` parameter is a
`Uint8`, so the `int` loop counter passed to it is narrowed modulo 256. -/
def SDL_SendJoystickHat (timestamp : Nat) (hat : Nat) (value : SDL_Hat) : Event :=
  Event.hat timestamp (hat % 256) value

/-- Modelled from the spec: `SDL_SendJoystickButton` is declared in `../SDL_joystick_c.h`,
outside this file. It delivers the button-state event (spec 4.3); its `button` parameter is
a `Uint8`, so the `int` loop counter passed to it is narrowed modulo 256. -/
def SDL_SendJoystickButton (timestamp : Nat) (button : Nat) (down : Bool) : Event :=
  Event.button timestamp (button % 256) down

/-- The loop `for (i = ..; i < joystick->naxes; ++i)`; the first counter is `naxes - i`.
`none` when `axes[i]` is read past the end of the array. -/
def axisLoop (timestamp : Nat) (axes : List Int) : Nat → Nat → Option (List Event)
  | 0, _ => some []
  | r + 1, i =>
    match axes[i]? with
    | none => none
    | some v =>
      (axisLoop timestamp axes r (i + 1)).map (fun evs => SDL_SendJoystickAxis timestamp i v :: evs)

/-- The loop `for (i = ..; i < joystick->nhats; ++i)`; the first counter is `nhats - i`.
`none` when `hats[i]` or `hat_map[hats[i]]` is read past the end of its array. -/
def hatLoop (timestamp : Nat) (hats : List Nat) : Nat → Nat → Option (List Event)
  | 0, _ => some []
  | r + 1, i =>
    match hats[i]? with
    | none => none
    | some c =>
      match hat_map[c]? with
      | none => none
      | some d =>
        (hatLoop timestamp hats r (i + 1)).map (fun evs => SDL_SendJoystickHat timestamp i d :: evs)

/-- The loop `for (i = ..; i < joystick->nbuttons; ++i)`; the first counter is
`nbuttons - i`, the last one the `uint32` variable `buttons`. -/
def buttonLoop (timestamp : Nat) : Nat → Nat → Nat → List Event
  | 0, _, _ => []
  | r + 1, i, buttons =>
    let down := (buttons &&& 0x01) != 0
    SDL_SendJoystickButton timestamp i down ::
      buttonLoop timestamp r (i + 1) ((buttons >>> 1) % 2 ^ 32)

/-- `HAIKU_JoystickUpdate`: the events delivered, in order, the joystick object and the
state afterwards; `none` when a null pointer is followed or an array is accessed out of
bounds. -/
def HAIKU_JoystickUpdate (env : Env) (st : State) (joystick : SDL_Joystick)
    (native : StickState) : Option (List Event × SDL_Joystick × State) :=
  let timestamp := (SDL_GetTicksNS env st).1
  let st1 := (SDL_GetTicksNS env st).2
  match joystick.hwdata with
  | none => none
  | some hwdata =>
    match hwdata.new_axes, hwdata.new_hats with
    | some axes0, some hats0 =>
      match axes0.fill native.axes, hats0.fill native.hats with
      | some axes, some hats =>
        let buttons := native.buttons % 2 ^ 32
        match axisLoop timestamp axes.cells joystick.naxes 0,
              hatLoop timestamp hats.cells joystick.nhats 0 with
        | some axisEvents, some hatEvents =>
          some (axisEvents ++ hatEvents ++ buttonLoop timestamp joystick.nbuttons 0 buttons,
                { joystick with hwdata := some { hwdata with new_axes := some axes, new_hats := some hats } },
                st1)
        | _, _ => none
      | _, _ => none
    | _, _ => none

/-! ## Teardown -/

/-- The loops `for (i = ..; i < numjoysticks; ++i) SDL_free(table[i]);` of
`HAIKU_JoystickQuit`; the first counter is `numjoysticks - i`. `none` when `table[i]` is
read past the end of the table. -/
def freeLoop (table : List (Option CString)) : Nat → Nat → State → Option State
  | 0, _, st => some st
  | r + 1, i, st =>
    match table[i]? with
    | none => none
    | some p => freeLoop table r (i + 1) (SDL_free (p.map (fun s => s.addr)) st)

/-- `HAIKU_JoystickQuit`. -/
def HAIKU_JoystickQuit (st : State) : Option State :=
  match freeLoop st.SDL_joyport st.numjoysticks 0 st with
  | none => none
  | some st1 =>
    let st2 := { st1 with SDL_joyport := st1.SDL_joyport.set 0 none }
    match freeLoop st2.SDL_joyname st2.numjoysticks 0 st2 with
    | none => none
    | some st3 => some { st3 with SDL_joyname := st3.SDL_joyname.set 0 none }

/-- `HAIKU_JoystickGetDevicePath`; `none` past the end of the table. -/
def HAIKU_JoystickGetDevicePath (st : State) (device_index : Nat) : Option (Option CString) :=
  st.SDL_joyport[device_index]?

/-- `HAIKU_JoystickGetDeviceName`; `none` past the end of the table. -/
def HAIKU_JoystickGetDeviceName (st : State) (device_index : Nat) : Option (Option CString) :=
  st.SDL_joyname[device_index]?

/-- The state of a joystick object after a successful `HAIKU_JoystickOpen`: the session
record and both scratch arrays exist, and the arrays have `naxes` and `nhats` cells. -/
def SDL_Joystick.isOpenSession (joystick : SDL_Joystick) : Bool :=
  match joystick.hwdata with
  | none => false
  | some hwdata =>
    match hwdata.new_axes, hwdata.new_hats with
    | some axes, some hats =>
      axes.cells.length == joystick.naxes && hats.cells.length == joystick.nhats
    | _, _ => false

/-- The joystick object after a poll stored `native` in the scratch arrays. -/
def SDL_Joystick.afterPoll (joystick : SDL_Joystick) (native : StickState) : SDL_Joystick :=
  { joystick with
    hwdata := joystick.hwdata.map (fun hwdata => { hwdata with
      new_axes := hwdata.new_axes.map (fun b => { b with cells := native.axes })
      new_hats := hwdata.new_hats.map (fun b => { b with cells := native.hats }) }) }

/-! ## Sample inputs -/

/-- A machine with three reported ports: ports 0 and 2 can be named and opened, port 1
has no name. Every stick has two axes, one hat and three buttons. -/
def sampleEnv : Env where
  CountDevices := 3
  GetDeviceName := fun i => if i = 1 then none else some (if i = 0 then "a" else "c")
  Open := fun _ => true
  GetControllerName := fun s => s
  CountAxes := fun _ => 2
  CountHats := fun _ => 1
  CountButtons := fun _ => 3
  SDL_CreateJoystickName := fun s => s
  allocFails := fun _ => false
  oomMessage := "Out of memory"
  ticks := fun n => 1000 + n

/-- The same machine once the sticks were unplugged: every native open fails. -/
def unpluggedEnv : Env :=
  { sampleEnv with Open := fun _ => false }

/-- The same machine when the very next allocation request (block 0) fails. -/
def exhaustedEnv : Env :=
  { sampleEnv with allocFails := fun n => n == 0 }

/-- A machine with twenty reported ports, all of which can be named and opened. -/
def crowdedEnv : Env :=
  { sampleEnv with CountDevices := 20, GetDeviceName := fun _ => some "p" }

/-- A machine with no reported port. -/
def emptyEnv : Env :=
  { sampleEnv with CountDevices := 0 }

/-- The process state before the driver ran. -/
def sampleState : State where
  SDL_joyport := List.replicate MAX_JOYSTICKS none
  SDL_joyname := List.replicate MAX_JOYSTICKS none
  numjoysticks := 0
  next := 0
  live := []
  released := []
  error := none
  added := []
  closed := []
  calibrated := []
  reads := 0

/-- A joystick object before `HAIKU_JoystickOpen`. -/
def sampleJoystick : SDL_Joystick where
  hwdata := none
  naxes := 0
  nhats := 0
  nbuttons := 0

/-- An open session with two axes, one hat and three buttons. -/
def sampleSession : SDL_Joystick where
  hwdata := some
    { addr := 4, stick := 5
      new_hats := some { addr := 7, cells := [0] }
      new_axes := some { addr := 6, cells := [0, 0] } }
  naxes := 2
  nhats := 1
  nbuttons := 3

/-- An open session on a stick reporting 258 buttons. -/
def manyButtonsSession : SDL_Joystick :=
  { sampleSession with nbuttons := 258 }

/-- An open session on a stick reporting 257 axes and nothing else. -/
def manyAxesSession : SDL_Joystick where
  hwdata := some
    { addr := 4, stick := 5
      new_hats := some { addr := 7, cells := [] }
      new_axes := some { addr := 6, cells := List.replicate 257 0 } }
  naxes := 257
  nhats := 0
  nbuttons := 0

/-- A device state with 257 axes, all at 9, no hat and no button pressed. -/
def manyAxesStick : StickState where
  axes := List.replicate 257 9
  hats := []
  buttons := 0

/-- A device state: axes at 5 and -7, the hat at code 3, buttons `0b101`. -/
def sampleStick : StickState where
  axes := [5, -7]
  hats := [3]
  buttons := 0b101

/-! ## Facts about the allocator model -/

@[simp] theorem SDL_calloc_numjoysticks (env : Env) (st : State) :
    (SDL_calloc env st).2.numjoysticks = st.numjoysticks := by
  unfold SDL_calloc; split <;> rfl

@[simp] theorem SDL_calloc_added (env : Env) (st : State) :
    (SDL_calloc env st).2.added = st.added := by
  unfold SDL_calloc; split <;> rfl

/-! ## Enumeration: count and notifications -/

theorem initBody_numjoysticks (env : Env) (i : Nat) (st : State) :
    (initBody env i st).numjoysticks
      = st.numjoysticks + (if connectable env i then 1 else 0) := by
  unfold initBody connectable
  cases env.GetDeviceName i with
  | none => simp
  | some name =>
    cases hopen : env.Open (some name) <;>
      simp [hopen, SDL_PrivateJoystickAdded, SDL_CreateJoystickName, SDL_strdup]

theorem initLoop_numjoysticks (env : Env) :
    ∀ (r i : Nat) (st : State), st.numjoysticks ≤ MAX_JOYSTICKS →
      (initLoop env r i st).numjoysticks
        = min MAX_JOYSTICKS
            (st.numjoysticks + ((List.range' i r).filter (connectable env)).length) := by
  intro r
  induction r with
  | zero => intro i st h; simp [initLoop, h]
  | succ r ih =>
    intro i st h
    unfold initLoop
    by_cases hlt : st.numjoysticks < MAX_JOYSTICKS
    · have hb := initBody_numjoysticks env i st
      have hle : (initBody env i st).numjoysticks ≤ MAX_JOYSTICKS := by
        rw [hb]; split <;> omega
      rw [if_pos hlt, ih (i + 1) (initBody env i st) hle, hb, List.range'_succ, List.filter_cons]
      cases connectable env i <;> simp
      omega
    · rw [if_neg hlt]
      omega

theorem HAIKU_JoystickInit_count (env : Env) (st : State) :
    (HAIKU_JoystickInit env st).2.numjoysticks = min MAX_JOYSTICKS (connectableCount env) := by
  unfold HAIKU_JoystickInit connectableCount
  simp only []
  rw [initLoop_numjoysticks env _ 0 _ (by simp), List.range_eq_range']
  simp

theorem instanceID_of_lt (i : Nat) (h : i + 1 < 2 ^ 32) :
    HAIKU_JoystickGetDeviceInstanceID i = i + 1 := by
  unfold HAIKU_JoystickGetDeviceInstanceID
  exact Nat.mod_eq_of_lt h

/-- C1: `HAIKU_JoystickInit` always reports success, and afterwards `HAIKU_JoystickGetCount`
is `min(16, k)` where `k` is the number of reported ports that can be both named and opened
by the probe (ports failing the name query or the probe open are not counted); so `k = 0`
gives 0, `k > 16` gives exactly 16, and the count never exceeds 16. -/
theorem C1_init_count (env : Env) (st : State) :
    (HAIKU_JoystickInit env st).1 = true ∧
    HAIKU_JoystickGetCount (HAIKU_JoystickInit env st).2 = min 16 (connectableCount env) ∧
    (connectableCount env = 0 → HAIKU_JoystickGetCount (HAIKU_JoystickInit env st).2 = 0) ∧
    (16 < connectableCount env → HAIKU_JoystickGetCount (HAIKU_JoystickInit env st).2 = 16) ∧
    HAIKU_JoystickGetCount (HAIKU_JoystickInit env st).2 ≤ 16 := by
  have h : HAIKU_JoystickGetCount (HAIKU_JoystickInit env st).2
      = min 16 (connectableCount env) := HAIKU_JoystickInit_count env st
  refine ⟨rfl, h, ?_, ?_, ?_⟩
  · intro h0; rw [h, h0]; rfl
  · intro h16; rw [h]; omega
  · rw [h]; omega

/-- C1 on three machines: twenty connectable ports give 16, no port gives 0, and the
sample machine (ports 0 and 2 connectable, port 1 unnamed) gives 2. -/
theorem C1_init_count_witness :
    connectableCount crowdedEnv = 20 ∧
    HAIKU_JoystickGetCount (HAIKU_JoystickInit crowdedEnv sampleState).2 = 16 ∧
    HAIKU_JoystickGetCount (HAIKU_JoystickInit emptyEnv sampleState).2 = 0 ∧
    HAIKU_JoystickGetCount (HAIKU_JoystickInit sampleEnv sampleState).2
      = min 16 (connectableCount sampleEnv) ∧
    connectableCount sampleEnv = 2 :=
  ⟨by decide,
   (C1_init_count crowdedEnv sampleState).2.2.2.1 (by decide),
   (C1_init_count emptyEnv sampleState).2.2.1 (by decide),
   (C1_init_count sampleEnv sampleState).2.1,
   by decide⟩

/-- C6: for every slot index `i` below the count (an `int`, so below `2^31`),
`HAIKU_JoystickGetDeviceInstanceID i = i + 1`; the ID is never zero and distinct slots have
distinct IDs. -/
theorem C6_instance_id (st : State) (hint : st.numjoysticks < 2 ^ 31) (i : Nat)
    (hi : i < HAIKU_JoystickGetCount st) :
    HAIKU_JoystickGetDeviceInstanceID i = i + 1 ∧
    HAIKU_JoystickGetDeviceInstanceID i ≠ 0 ∧
    ∀ j, j < HAIKU_JoystickGetCount st → j ≠ i →
      HAIKU_JoystickGetDeviceInstanceID j ≠ HAIKU_JoystickGetDeviceInstanceID i := by
  unfold HAIKU_JoystickGetCount at *
  have hid : ∀ j, j < st.numjoysticks → HAIKU_JoystickGetDeviceInstanceID j = j + 1 :=
    fun j hj => instanceID_of_lt j (by omega)
  refine ⟨hid i hi, ?_, ?_⟩
  · rw [hid i hi]; omega
  · intro j hj hne
    rw [hid i hi, hid j hj]
    omega

/-- C6 at slot 1 of the sample registry, which holds two devices. -/
theorem C6_instance_id_witness :
    HAIKU_JoystickGetCount (HAIKU_JoystickInit sampleEnv sampleState).2 = 2 ∧
    HAIKU_JoystickGetDeviceInstanceID 1 = 1 + 1 ∧
    HAIKU_JoystickGetDeviceInstanceID 1 ≠ 0 ∧
    ∀ j, j < HAIKU_JoystickGetCount (HAIKU_JoystickInit sampleEnv sampleState).2 → j ≠ 1 →
      HAIKU_JoystickGetDeviceInstanceID j ≠ HAIKU_JoystickGetDeviceInstanceID 1 :=
  ⟨by decide,
   C6_instance_id (HAIKU_JoystickInit sampleEnv sampleState).2 (by decide) 1 (by decide)⟩

/-- C4: the hat table has an entry for every code `0..8`: code 0 is centered and codes
`1..8` are up, up-right, right, down-right, down, down-left, left, up-left; the lookup is a
function of the code, and distinct codes give distinct directions. -/
theorem C4_hat_map :
    hat_map[0]? = some SDL_HAT_CENTERED ∧
    hat_map[1]? = some SDL_HAT_UP ∧
    hat_map[2]? = some SDL_HAT_RIGHTUP ∧
    hat_map[3]? = some SDL_HAT_RIGHT ∧
    hat_map[4]? = some SDL_HAT_RIGHTDOWN ∧
    hat_map[5]? = some SDL_HAT_DOWN ∧
    hat_map[6]? = some SDL_HAT_LEFTDOWN ∧
    hat_map[7]? = some SDL_HAT_LEFT ∧
    hat_map[8]? = some SDL_HAT_LEFTUP ∧
    (∀ c : Fin 9, ∃! d : SDL_Hat, hat_map[c.val]? = some d) ∧
    (∀ c : Fin 9, ∀ ts, hatLoop ts [c.val] 1 0 = (hat_map[c.val]?).map (fun d => [Event.hat ts 0 d])) ∧
    Function.Injective (fun c : Fin 9 => hat_map[c.val]?) := by
  refine ⟨rfl, rfl, rfl, rfl, rfl, rfl, rfl, rfl, rfl, ?_, ?_, ?_⟩
  · intro c
    fin_cases c <;> simp [hat_map]
  · intro c ts
    fin_cases c <;> simp [hat_map, hatLoop, SDL_SendJoystickHat]
  · intro a b
    fin_cases a <;> fin_cases b <;> simp [hat_map]

/-! ## Polling: the three loops -/

theorem isOpenSession_elim {joystick : SDL_Joystick} (h : joystick.isOpenSession = true) :
    ∃ hw axes hats, joystick.hwdata = some hw ∧ hw.new_axes = some axes ∧
      hw.new_hats = some hats ∧ axes.cells.length = joystick.naxes ∧
      hats.cells.length = joystick.nhats := by
  unfold SDL_Joystick.isOpenSession at h
  cases hhw : joystick.hwdata with
  | none => simp [hhw] at h
  | some hw =>
    cases ha : hw.new_axes with
    | none => simp [hhw, ha] at h
    | some axes =>
      cases hh : hw.new_hats with
      | none => simp [hhw, ha, hh] at h
      | some hats =>
        simp [hhw, ha, hh] at h
        exact ⟨hw, axes, hats, rfl, ha, hh, h.1, h.2⟩

theorem Buffer.fill_of_length_eq {α : Type} (buf : Buffer α) (vals : List α)
    (h : vals.length = buf.cells.length) :
    buf.fill vals = some { buf with cells := vals } := by
  unfold Buffer.fill
  simp [h]

theorem hat_map_isSome_iff (c : Nat) : (hat_map[c]?).isSome = true ↔ c ≤ 8 := by
  rw [Option.isSome_iff_ne_none, ne_eq, List.getElem?_eq_none_iff]
  simp [hat_map]
  omega

theorem getElem?_append_cons_length {α : Type} (pre : List α) (v : α) (vs : List α) :
    (pre ++ v :: vs)[pre.length]? = some v := by
  induction pre with
  | nil => simp
  | cons x xs ih => simpa using ih

theorem axisLoop_append (ts : Nat) :
    ∀ (vs pre : List Int),
      axisLoop ts (pre ++ vs) vs.length pre.length
        = some ((vs.enumFrom pre.length).map (fun p => Event.axis ts (p.1 % 256) p.2)) := by
  intro vs
  induction vs with
  | nil => intro pre; simp [axisLoop]
  | cons v vs ih =>
    intro pre
    have h := ih (pre ++ [v])
    simp only [List.append_assoc, List.singleton_append, List.length_append,
      List.length_singleton] at h
    simp only [axisLoop, List.length_cons, getElem?_append_cons_length, h]
    simp [List.enumFrom_cons, SDL_SendJoystickAxis]

theorem axisLoop_all (ts : Nat) (vs : List Int) :
    axisLoop ts vs vs.length 0
      = some (vs.enum.map (fun p => Event.axis ts (p.1 % 256) p.2)) := by
  have h := axisLoop_append ts vs []
  simpa [List.enum] using h

theorem hatLoop_append (ts : Nat) :
    ∀ (cs pre : List Nat) (dirs : List SDL_Hat),
      cs.map (fun c => hat_map[c]?) = dirs.map some →
      hatLoop ts (pre ++ cs) cs.length pre.length
        = some ((dirs.enumFrom pre.length).map (fun p => Event.hat ts (p.1 % 256) p.2)) := by
  intro cs
  induction cs with
  | nil =>
    intro pre dirs h
    cases dirs with
    | nil => simp [hatLoop]
    | cons d ds => simp at h
  | cons c cs ih =>
    intro pre dirs h
    cases dirs with
    | nil => simp at h
    | cons d ds =>
      simp only [List.map_cons, List.cons.injEq] at h
      have h2 := ih (pre ++ [c]) ds h.2
      simp only [List.append_assoc, List.singleton_append, List.length_append,
        List.length_singleton] at h2
      simp only [hatLoop, List.length_cons, getElem?_append_cons_length, h.1, h2]
      simp [List.enumFrom_cons, SDL_SendJoystickHat]

theorem hatLoop_none (ts : Nat) :
    ∀ (cs pre : List Nat), (∃ c ∈ cs, 8 < c) →
      hatLoop ts (pre ++ cs) cs.length pre.length = none := by
  intro cs
  induction cs with
  | nil => intro pre h; simp at h
  | cons c cs ih =>
    intro pre h
    by_cases hc : c ≤ 8
    · have hrest : ∃ c ∈ cs, 8 < c := by
        obtain ⟨x, hx, hgt⟩ := h
        rcases List.mem_cons.mp hx with rfl | hx
        · omega
        · exact ⟨x, hx, hgt⟩
      have h2 := ih (pre ++ [c]) hrest
      simp only [List.append_assoc, List.singleton_append, List.length_append,
        List.length_singleton] at h2
      obtain ⟨d, hd⟩ := Option.isSome_iff_exists.mp ((hat_map_isSome_iff c).mpr hc)
      simp only [hatLoop, List.length_cons, getElem?_append_cons_length, hd, h2]
      rfl
    · have hnone : hat_map[c]? = none := by
        have := hat_map_isSome_iff c
        cases hl : hat_map[c]? with
        | none => rfl
        | some d => rw [hl] at this; exact absurd (this.mp rfl) hc
      simp only [hatLoop, List.length_cons, getElem?_append_cons_length, hnone]

theorem hat_codes_mapped (cs : List Nat) (h : ∀ c ∈ cs, c ≤ 8) :
    ∃ dirs : List SDL_Hat, cs.map (fun c => hat_map[c]?) = dirs.map some := by
  induction cs with
  | nil => exact ⟨[], rfl⟩
  | cons c cs ih =>
    obtain ⟨ds, hds⟩ := ih (fun x hx => h x (List.mem_cons_of_mem c hx))
    obtain ⟨d, hd⟩ := Option.isSome_iff_exists.mp
      ((hat_map_isSome_iff c).mpr (h c (List.mem_cons_self c cs)))
    exact ⟨d :: ds, by simp [hd, hds]⟩

theorem buttonLoop_eq (ts : Nat) :
    ∀ (r i m : Nat), m < 2 ^ 32 →
      buttonLoop ts r i m
        = (List.range r).map
            (fun k => Event.button ts ((i + k) % 256) (Nat.testBit m k)) := by
  intro r
  induction r with
  | zero => intro i m _; simp [buttonLoop]
  | succ r ih =>
    intro i m hm
    have hshift : (m >>> 1) % 2 ^ 32 = m / 2 := by
      rw [Nat.shiftRight_eq_div_pow]
      simp only [pow_one]
      exact Nat.mod_eq_of_lt (by omega)
    have hbit : ((m &&& 0x01) != 0) = Nat.testBit m 0 := by
      rw [Nat.testBit_zero, Nat.and_one_is_mod]
      rcases Nat.mod_two_eq_zero_or_one m with h | h <;> simp [h]
    unfold buttonLoop
    simp only []
    rw [hshift, hbit, ih (i + 1) (m / 2) (by omega), List.range_succ_eq_map, List.map_cons,
      List.map_map]
    simp only [SDL_SendJoystickButton, Nat.add_zero]
    congr 1
    apply List.map_congr_left
    intro k _
    simp only [Function.comp, Nat.testBit_succ]
    congr 2
    omega

theorem axisLoop_no_button (ts : Nat) (axes : List Int) :
    ∀ (r i : Nat) (evs : List Event), axisLoop ts axes r i = some evs →
      evs.filter Event.isButton = [] := by
  intro r
  induction r with
  | zero => intro i evs h; simp [axisLoop] at h; subst h; rfl
  | succ r ih =>
    intro i evs h
    unfold axisLoop at h
    cases hv : axes[i]? with
    | none => simp [hv] at h
    | some v =>
      cases hr : axisLoop ts axes r (i + 1) with
      | none => simp [hv, hr] at h
      | some rest =>
        simp [hv, hr] at h
        rw [← h, List.filter_cons]
        simp [Event.isButton, SDL_SendJoystickAxis, ih (i + 1) rest hr]

theorem hatLoop_no_button (ts : Nat) (hats : List Nat) :
    ∀ (r i : Nat) (evs : List Event), hatLoop ts hats r i = some evs →
      evs.filter Event.isButton = [] := by
  intro r
  induction r with
  | zero => intro i evs h; simp [hatLoop] at h; subst h; rfl
  | succ r ih =>
    intro i evs h
    unfold hatLoop at h
    cases hv : hats[i]? with
    | none => simp [hv] at h
    | some c =>
      cases hd : hat_map[c]? with
      | none => simp [hv, hd] at h
      | some d =>
        cases hr : hatLoop ts hats r (i + 1) with
        | none => simp [hv, hd, hr] at h
        | some rest =>
          simp [hv, hd, hr] at h
          rw [← h, List.filter_cons]
          simp [Event.isButton, SDL_SendJoystickHat, ih (i + 1) rest hr]

/-- One poll of an open session whose device delivers as many values as it counted:
the call goes wrong exactly when the hat loop does. -/
theorem HAIKU_JoystickUpdate_eq (env : Env) (st : State) (joystick : SDL_Joystick)
    (native : StickState) (hs : joystick.isOpenSession = true)
    (ha : native.axes.length = joystick.naxes) (hh : native.hats.length = joystick.nhats) :
    HAIKU_JoystickUpdate env st joystick native
      = (hatLoop (env.ticks st.reads) native.hats native.hats.length 0).map
          (fun hatEvents =>
            (native.axes.enum.map (fun p => Event.axis (env.ticks st.reads) (p.1 % 256) p.2)
              ++ hatEvents
              ++ buttonLoop (env.ticks st.reads) joystick.nbuttons 0 (native.buttons % 2 ^ 32),
             joystick.afterPoll native,
             { st with reads := st.reads + 1 })) := by
  obtain ⟨hw, axes, hats, hhw, hax, hht, hla, hlh⟩ := isOpenSession_elim hs
  unfold HAIKU_JoystickUpdate SDL_Joystick.afterPoll
  simp only [hhw, hax, hht, SDL_GetTicksNS]
  rw [Buffer.fill_of_length_eq axes native.axes (by omega),
    Buffer.fill_of_length_eq hats native.hats (by omega)]
  simp only []
  rw [← ha, ← hh, axisLoop_all]
  cases hatLoop (env.ticks st.reads) native.hats native.hats.length 0 <;> simp [hax, hht]

/-! ## Polling: the claims -/

set_option maxRecDepth 100000 in
/-- C3 as stated fails above 256: on a session with 257 axes, all at 9, the 257th event
delivered by `HAIKU_JoystickUpdate` carries axis index 0, not 256, because the loop counter
is narrowed to the 8-bit index parameter of `SDL_SendJoystickAxis`. -/
theorem C3_axis_index_wraps :
    manyAxesSession.isOpenSession = true ∧
    manyAxesStick.axes.length = manyAxesSession.naxes ∧
    manyAxesStick.hats.length = manyAxesSession.nhats ∧
    (∀ c ∈ manyAxesStick.hats, c ≤ 8) ∧
    (HAIKU_JoystickUpdate sampleEnv sampleState manyAxesSession manyAxesStick).map
        (fun r => (r.1.length, r.1[255]?, r.1[256]?))
      = some (257, some (Event.axis 1000 255 9), some (Event.axis 1000 0 9)) ∧
    (HAIKU_JoystickUpdate sampleEnv sampleState manyAxesSession manyAxesStick).map
        (fun r => r.1[256]?)
      ≠ some (some (Event.axis 1000 256 9)) := by
  refine ⟨by decide, by decide, by decide, by decide, ?_, ?_⟩ <;> decide

/-- C3, amended: for an open session with counts `(a, h, b)` polled on a device state
delivering `a` axis values and `h` hat codes, all codes in `0..8`, `HAIKU_JoystickUpdate`
returns, and the events it delivers are exactly the `a` axis events with the raw native
values, then the `h` hat events with the mapped directions, then the `b` button events,
each group in ascending loop order; the event of loop position `i` carries index
`i mod 256`, so when `a`, `h` and `b` are at most 256 the indices are `0..a-1`, `0..h-1`
and `0..b-1`. There are `a + h + b` events and each carries the one clock reading taken at
the start of the call. -/
theorem C3_update_order (env : Env) (st : State) (joystick : SDL_Joystick)
    (native : StickState) (hs : joystick.isOpenSession = true)
    (ha : native.axes.length = joystick.naxes) (hh : native.hats.length = joystick.nhats)
    (hc : ∀ c ∈ native.hats, c ≤ 8) :
    ∃ (dirs : List SDL_Hat) (evs : List Event),
      native.hats.map (fun c => hat_map[c]?) = dirs.map some ∧
      evs = native.axes.enum.map
              (fun p => Event.axis (SDL_GetTicksNS env st).1 (p.1 % 256) p.2)
          ++ dirs.enum.map (fun p => Event.hat (SDL_GetTicksNS env st).1 (p.1 % 256) p.2)
          ++ (List.range joystick.nbuttons).map
              (fun i => Event.button (SDL_GetTicksNS env st).1 (i % 256)
                (Nat.testBit (native.buttons % 2 ^ 32) i)) ∧
      HAIKU_JoystickUpdate env st joystick native
        = some (evs, joystick.afterPoll native, (SDL_GetTicksNS env st).2) ∧
      evs.length = joystick.naxes + joystick.nhats + joystick.nbuttons ∧
      (∀ e ∈ evs, e.timestamp = env.ticks st.reads) ∧
      (SDL_GetTicksNS env st).2.reads = st.reads + 1 ∧
      (joystick.naxes ≤ 256 → joystick.nhats ≤ 256 → joystick.nbuttons ≤ 256 →
        evs = native.axes.enum.map (fun p => Event.axis (SDL_GetTicksNS env st).1 p.1 p.2)
            ++ dirs.enum.map (fun p => Event.hat (SDL_GetTicksNS env st).1 p.1 p.2)
            ++ (List.range joystick.nbuttons).map
                (fun i => Event.button (SDL_GetTicksNS env st).1 i
                  (Nat.testBit (native.buttons % 2 ^ 32) i))) := by
  obtain ⟨dirs, hdirs⟩ := hat_codes_mapped native.hats hc
  have hlen : dirs.length = native.hats.length := by
    have := congrArg List.length hdirs
    simpa using this.symm
  have hhat := hatLoop_append (env.ticks st.reads) native.hats [] dirs hdirs
  simp only [List.nil_append, List.length_nil] at hhat
  have hbtn := buttonLoop_eq (env.ticks st.reads) joystick.nbuttons 0 (native.buttons % 2 ^ 32)
    (Nat.mod_lt _ (by norm_num))
  refine ⟨dirs, _, hdirs, rfl, ?_, ?_, ?_, rfl, ?_⟩
  · rw [HAIKU_JoystickUpdate_eq env st joystick native hs ha hh, hhat, hbtn]
    simp [SDL_GetTicksNS, List.enum]
  · simp [List.enum, hlen, ha, hh]
    omega
  · intro e he
    simp only [List.mem_append, List.mem_map, SDL_GetTicksNS] at he
    rcases he with (⟨p, _, rfl⟩ | ⟨p, _, rfl⟩) | ⟨i, _, rfl⟩ <;> rfl
  · intro hna hnh hnb
    congr 1
    · congr 1
      · apply List.map_congr_left
        intro p hp
        have := List.fst_lt_of_mem_enum hp
        rw [Nat.mod_eq_of_lt (by omega)]
      · apply List.map_congr_left
        intro p hp
        have := List.fst_lt_of_mem_enum hp
        rw [Nat.mod_eq_of_lt (by omega)]
    · apply List.map_congr_left
      intro i hi
      have := List.mem_range.mp hi
      rw [Nat.mod_eq_of_lt (by omega)]

/-- C3 amended, at the sample session: events `axis 0, axis 1, hat 0, button 0, button 1,
button 2`, all stamped 1000. -/
theorem C3_update_order_witness :
    sampleSession.isOpenSession = true ∧
    (HAIKU_JoystickUpdate sampleEnv sampleState sampleSession sampleStick).map (fun r => r.1)
      = some [Event.axis 1000 0 5, Event.axis 1000 1 (-7), Event.hat 1000 0 SDL_HAT_RIGHT,
          Event.button 1000 0 true, Event.button 1000 1 false, Event.button 1000 2 true] ∧
    ∃ (dirs : List SDL_Hat) (evs : List Event),
      sampleStick.hats.map (fun c => hat_map[c]?) = dirs.map some ∧
      evs = sampleStick.axes.enum.map
              (fun p => Event.axis (SDL_GetTicksNS sampleEnv sampleState).1 (p.1 % 256) p.2)
          ++ dirs.enum.map
              (fun p => Event.hat (SDL_GetTicksNS sampleEnv sampleState).1 (p.1 % 256) p.2)
          ++ (List.range sampleSession.nbuttons).map
              (fun i => Event.button (SDL_GetTicksNS sampleEnv sampleState).1 (i % 256)
                (Nat.testBit (sampleStick.buttons % 2 ^ 32) i)) ∧
      HAIKU_JoystickUpdate sampleEnv sampleState sampleSession sampleStick
        = some (evs, sampleSession.afterPoll sampleStick,
            (SDL_GetTicksNS sampleEnv sampleState).2) ∧
      evs.length = sampleSession.naxes + sampleSession.nhats + sampleSession.nbuttons ∧
      (∀ e ∈ evs, e.timestamp = sampleEnv.ticks sampleState.reads) ∧
      (SDL_GetTicksNS sampleEnv sampleState).2.reads = sampleState.reads + 1 :=
  ⟨by decide, by decide,
   (C3_update_order sampleEnv sampleState sampleSession sampleStick
     (by decide) (by decide) (by decide) (by decide)).imp
     (fun _ h => h.imp
       (fun _ h2 => ⟨h2.1, h2.2.1, h2.2.2.1, h2.2.2.2.1, h2.2.2.2.2.1, h2.2.2.2.2.2.1⟩))⟩

set_option maxRecDepth 100000 in
/-- C2 as stated fails above 256: on a session with 258 buttons the 257th button event
delivered by `HAIKU_JoystickUpdate` carries button index 0, not 256, because the loop
counter is narrowed to the 8-bit index parameter of `SDL_SendJoystickButton`. -/
theorem C2_button_index_wraps :
    manyButtonsSession.isOpenSession = true ∧
    manyButtonsSession.nbuttons = 258 ∧
    sampleStick.buttons < 2 ^ 32 ∧
    (HAIKU_JoystickUpdate sampleEnv sampleState manyButtonsSession sampleStick).map
        (fun r => ((r.1.filter Event.isButton).length,
          (r.1.filter Event.isButton)[255]?, (r.1.filter Event.isButton)[256]?))
      = some (258, some (Event.button 1000 255 false), some (Event.button 1000 0 false)) ∧
    (HAIKU_JoystickUpdate sampleEnv sampleState manyButtonsSession sampleStick).map
        (fun r => (r.1.filter Event.isButton)[256]?)
      ≠ some (some (Event.button 1000 256 false)) := by
  refine ⟨by decide, by decide, by decide, ?_, ?_⟩ <;> decide

/-- C2, amended: for an open session with `b` buttons and a 32-bit button bitmask `m`, the
button loop delivers exactly `b` button events, one per loop position `i = 0, 1, ..., b-1`
in that order; the event of position `i` carries index `i mod 256` (which is `i` itself
whenever `b ≤ 256`) and is pressed exactly when bit `i` of `m` is set (never for `i ≥ 32`);
these are the button events of every completed `HAIKU_JoystickUpdate`, and the call
completes whenever the hat codes are in `0..8`. -/
theorem C2_update_buttons (env : Env) (st : State) (joystick : SDL_Joystick)
    (native : StickState) (hs : joystick.isOpenSession = true)
    (ha : native.axes.length = joystick.naxes) (hh : native.hats.length = joystick.nhats)
    (hm : native.buttons < 2 ^ 32) :
    buttonLoop (env.ticks st.reads) joystick.nbuttons 0 native.buttons
      = (List.range joystick.nbuttons).map
          (fun i => Event.button (env.ticks st.reads) (i % 256) (Nat.testBit native.buttons i)) ∧
    (∀ i, 32 ≤ i → Nat.testBit native.buttons i = false) ∧
    (∀ r, HAIKU_JoystickUpdate env st joystick native = some r →
      r.1.filter Event.isButton
        = (List.range joystick.nbuttons).map
            (fun i => Event.button (env.ticks st.reads) (i % 256)
              (Nat.testBit native.buttons i))) ∧
    ((∀ c ∈ native.hats, c ≤ 8) →
      (HAIKU_JoystickUpdate env st joystick native).isSome = true) ∧
    (joystick.nbuttons ≤ 256 →
      (List.range joystick.nbuttons).map
          (fun i => Event.button (env.ticks st.reads) (i % 256) (Nat.testBit native.buttons i))
        = (List.range joystick.nbuttons).map
          (fun i => Event.button (env.ticks st.reads) i (Nat.testBit native.buttons i))) := by
  have hbtn : buttonLoop (env.ticks st.reads) joystick.nbuttons 0 native.buttons
      = (List.range joystick.nbuttons).map
          (fun i => Event.button (env.ticks st.reads) (i % 256)
            (Nat.testBit native.buttons i)) := by
    rw [buttonLoop_eq _ _ _ _ hm]
    simp
  have hfilter : ((List.range joystick.nbuttons).map
      (fun i => Event.button (env.ticks st.reads) (i % 256)
        (Nat.testBit native.buttons i))).filter Event.isButton
      = (List.range joystick.nbuttons).map
          (fun i => Event.button (env.ticks st.reads) (i % 256)
            (Nat.testBit native.buttons i)) := by
    rw [List.filter_eq_self]
    intro e he
    obtain ⟨i, _, rfl⟩ := List.mem_map.mp he
    rfl
  refine ⟨hbtn, ?_, ?_, ?_, ?_⟩
  · intro i hi
    apply Nat.testBit_eq_false_of_lt
    calc native.buttons < 2 ^ 32 := hm
      _ ≤ 2 ^ i := Nat.pow_le_pow_right (by norm_num) hi
  · intro r hr
    rw [HAIKU_JoystickUpdate_eq env st joystick native hs ha hh] at hr
    cases hl : hatLoop (env.ticks st.reads) native.hats native.hats.length 0 with
    | none => simp [hl] at hr
    | some hatEvents =>
      simp only [hl, Option.map_some', Option.some.injEq] at hr
      rw [← hr, Nat.mod_eq_of_lt hm, hbtn]
      simp only [List.filter_append, hfilter]
      rw [hatLoop_no_button _ _ _ _ _ hl]
      have haxis := axisLoop_no_button _ _ _ _ _ (axisLoop_all (env.ticks st.reads) native.axes)
      rw [haxis]
      simp
  · intro hc
    obtain ⟨dirs, hdirs⟩ := hat_codes_mapped native.hats hc
    have hhat := hatLoop_append (env.ticks st.reads) native.hats [] dirs hdirs
    simp only [List.nil_append, List.length_nil] at hhat
    rw [HAIKU_JoystickUpdate_eq env st joystick native hs ha hh, hhat]
    rfl
  · intro hb
    apply List.map_congr_left
    intro i hi
    have := List.mem_range.mp hi
    rw [Nat.mod_eq_of_lt (by omega)]

/-- C2 amended, at the sample session: bitmask `0b101` with three buttons gives
pressed, released, pressed for indices 0, 1, 2. -/
theorem C2_update_buttons_witness :
    sampleStick.buttons = 0b101 ∧ sampleSession.nbuttons = 3 ∧
    (HAIKU_JoystickUpdate sampleEnv sampleState sampleSession sampleStick).map
        (fun r => r.1.filter Event.isButton)
      = some [Event.button 1000 0 true, Event.button 1000 1 false, Event.button 1000 2 true] ∧
    (∀ r, HAIKU_JoystickUpdate sampleEnv sampleState sampleSession sampleStick = some r →
      r.1.filter Event.isButton
        = (List.range sampleSession.nbuttons).map
            (fun i => Event.button (sampleEnv.ticks sampleState.reads) (i % 256)
              (Nat.testBit sampleStick.buttons i))) ∧
    (List.range sampleSession.nbuttons).map
        (fun i => Event.button (sampleEnv.ticks sampleState.reads) (i % 256)
          (Nat.testBit sampleStick.buttons i))
      = (List.range sampleSession.nbuttons).map
        (fun i => Event.button (sampleEnv.ticks sampleState.reads) i
          (Nat.testBit sampleStick.buttons i)) :=
  ⟨rfl, rfl, by decide,
   (C2_update_buttons sampleEnv sampleState sampleSession sampleStick
     (by decide) (by decide) (by decide) (by decide)).2.2.1,
   (C2_update_buttons sampleEnv sampleState sampleSession sampleStick
     (by decide) (by decide) (by decide) (by decide)).2.2.2.2 (by decide)⟩

/-- C10: `HAIKU_JoystickUpdate` checks no hat code. For an open session polled on a device
state of matching sizes, every lookup into the 9-entry table succeeds (the call completes)
exactly when every native hat code is at most 8; the table has an entry exactly for the
codes `0..8`, and none for a code in `9..255`. -/
theorem C10_hat_lookup (env : Env) (st : State) (joystick : SDL_Joystick)
    (native : StickState) (hs : joystick.isOpenSession = true)
    (ha : native.axes.length = joystick.naxes) (hh : native.hats.length = joystick.nhats) :
    ((HAIKU_JoystickUpdate env st joystick native).isSome = true ↔ ∀ c ∈ native.hats, c ≤ 8) ∧
    ((hatLoop (env.ticks st.reads) native.hats joystick.nhats 0).isSome = true
      ↔ ∀ c ∈ native.hats, c ≤ 8) ∧
    (∀ c : Nat, (hat_map[c]?).isSome = true ↔ c ≤ 8) ∧
    (∀ c : Nat, 9 ≤ c → c ≤ 255 → hat_map[c]? = none) := by
  have hloop : (hatLoop (env.ticks st.reads) native.hats native.hats.length 0).isSome = true
      ↔ ∀ c ∈ native.hats, c ≤ 8 := by
    constructor
    · intro hsome
      by_contra hbad
      have hex : ∃ c ∈ native.hats, 8 < c := by
        by_contra hno
        apply hbad
        intro c hc
        by_contra hgt
        exact hno ⟨c, hc, by omega⟩
      have hnone := hatLoop_none (env.ticks st.reads) native.hats [] hex
      simp only [List.nil_append, List.length_nil] at hnone
      rw [hnone] at hsome
      exact absurd hsome (by simp)
    · intro hc
      obtain ⟨dirs, hdirs⟩ := hat_codes_mapped native.hats hc
      have hhat := hatLoop_append (env.ticks st.reads) native.hats [] dirs hdirs
      simp only [List.nil_append, List.length_nil] at hhat
      rw [hhat]
      rfl
  refine ⟨?_, ?_, hat_map_isSome_iff, ?_⟩
  · rw [HAIKU_JoystickUpdate_eq env st joystick native hs ha hh, ← hloop]
    cases hatLoop (env.ticks st.reads) native.hats native.hats.length 0 <;> simp
  · rw [← hh]
    exact hloop
  · intro c h9 _
    have h := hat_map_isSome_iff c
    cases hl : hat_map[c]? with
    | none => rfl
    | some d =>
      rw [hl] at h
      have := h.mp rfl
      omega

/-- C10 at the sample session, whose single hat code is 3. -/
theorem C10_hat_lookup_witness :
    sampleSession.isOpenSession = true ∧
    ((HAIKU_JoystickUpdate sampleEnv sampleState sampleSession sampleStick).isSome = true
      ↔ ∀ c ∈ sampleStick.hats, c ≤ 8) ∧
    HAIKU_JoystickUpdate sampleEnv sampleState sampleSession
      { sampleStick with hats := [9] } = none :=
  ⟨by decide,
   (C10_hat_lookup sampleEnv sampleState sampleSession sampleStick
     (by decide) (by decide) (by decide)).1,
   rfl⟩

/-! ## Opening and closing a session -/

theorem HAIKU_JoystickOpen_isSome (env : Env) (st : State) (joystick : SDL_Joystick)
    (device_index : Nat) (path : Option CString)
    (hpath : HAIKU_JoystickGetDevicePath st device_index = some path) :
    (HAIKU_JoystickOpen env st joystick device_index).isSome = true := by
  unfold HAIKU_JoystickGetDevicePath at hpath
  unfold HAIKU_JoystickOpen
  cases h0 : env.allocFails st.next
  · cases h1 : env.Open (path.map (fun p => p.text))
    · simp [SDL_calloc, newBJoystick, h0, hpath, h1]
    · cases h2 : env.allocFails (st.next + 2) <;> cases h3 : env.allocFails (st.next + 3) <;>
        simp [SDL_calloc, newBJoystick, h0, hpath, h1, h2, h3]
  · simp [SDL_calloc, h0]

theorem HAIKU_JoystickOpen_result (env : Env) (st : State) (joystick : SDL_Joystick)
    (device_index : Nat) (path : Option CString)
    (hpath : HAIKU_JoystickGetDevicePath st device_index = some path)
    (r : Bool × SDL_Joystick × State)
    (hr : HAIKU_JoystickOpen env st joystick device_index = some r) :
    (r.1 = false ↔
      (env.allocFails st.next = true ∨ env.Open (path.map (fun p => p.text)) = false ∨
       env.allocFails (st.next + 2) = true ∨ env.allocFails (st.next + 3) = true)) ∧
    (r.1 = false →
      r.2.2.live = st.live ∧
      (r.2.2.error = some "Unable to open joystick" ∨ r.2.2.error = some env.oomMessage) ∧
      (env.allocFails st.next = false → env.Open (path.map (fun p => p.text)) = false →
        r.2.2.error = some "Unable to open joystick") ∧
      (env.allocFails st.next = false → r.2.2.closed = st.closed ++ [st.next + 1])) ∧
    (r.1 = true →
      r.2.1.naxes = env.CountAxes (path.map (fun p => p.text)) ∧
      r.2.1.nhats = env.CountHats (path.map (fun p => p.text)) ∧
      r.2.1.nbuttons = env.CountButtons (path.map (fun p => p.text)) ∧
      r.2.1.isOpenSession = true ∧
      r.2.2.calibrated = st.calibrated ++ [st.next + 1] ∧
      r.2.2.released = st.released) := by
  unfold HAIKU_JoystickGetDevicePath at hpath
  unfold HAIKU_JoystickOpen at hr
  cases h0 : env.allocFails st.next
  · cases h1 : env.Open (path.map (fun p => p.text))
    · simp [SDL_calloc, newBJoystick, h0, hpath, h1, HAIKU_JoystickClose, SDL_free,
        SDL_SetError] at hr
      subst hr
      simp [h0, h1]
    · cases h2 : env.allocFails (st.next + 2) <;> cases h3 : env.allocFails (st.next + 3) <;>
        simp [SDL_calloc, newBJoystick, h0, hpath, h1, h2, h3, HAIKU_JoystickClose, SDL_free,
          SDL_SetError] at hr <;>
        subst hr <;> simp [h0, h1, h2, h3, SDL_Joystick.isOpenSession]
  · simp [SDL_calloc, h0] at hr
    subst hr
    simp [h0]

theorem nodup_append_fresh (l rel : List Nat) (n : Nat) (hfresh : ∀ a ∈ l, a < n)
    (hl : l.Nodup) (hrel : rel.Nodup) (hge : ∀ a ∈ rel, n ≤ a) : (l ++ rel).Nodup := by
  rw [List.nodup_append]
  refine ⟨hl, hrel, ?_⟩
  intro a ha hb
  have h1 := hfresh a ha
  have h2 := hge a hb
  omega

theorem HAIKU_JoystickOpen_failed_releases (env : Env) (st : State) (joystick : SDL_Joystick)
    (device_index : Nat) (r : Bool × SDL_Joystick × State)
    (hfresh : ∀ a ∈ st.released, a < st.next) (hnodup : st.released.Nodup)
    (hr : HAIKU_JoystickOpen env st joystick device_index = some r) (hfail : r.1 = false) :
    r.2.2.released.Nodup ∧
    (∃ rel, r.2.2.released = st.released ++ rel ∧
      ∀ a ∈ rel, st.next ≤ a ∧ a < r.2.2.next ∧ (a = st.next + 1 ∨ env.allocFails a = false)) ∧
    (env.allocFails st.next = true →
      r.2.1.hwdata = none ∧ HAIKU_JoystickClose r.2.1 r.2.2 = r.2.2) := by
  unfold HAIKU_JoystickOpen at hr
  cases h0 : env.allocFails st.next
  · cases hp : st.SDL_joyport[device_index]? with
    | none => simp [SDL_calloc, newBJoystick, h0, hp] at hr
    | some path =>
      cases h1 : env.Open (path.map (fun p => p.text))
      · simp [SDL_calloc, newBJoystick, h0, hp, h1, HAIKU_JoystickClose, SDL_free,
          SDL_SetError] at hr
        subst hr
        dsimp only
        refine ⟨?_, ⟨_, rfl, ?_⟩, by simp⟩
        · exact nodup_append_fresh _ _ st.next hfresh hnodup (by simp)
            (by intro a ha; simp at ha; omega)
        · intro a ha
          simp only [List.mem_cons, List.mem_singleton, List.not_mem_nil, or_false] at ha
          refine ⟨by omega, by omega, ?_⟩
          rcases ha with rfl | rfl
          · exact Or.inl rfl
          · exact Or.inr h0
      · have h2' : env.allocFails (st.next + 1 + 1) = env.allocFails (st.next + 2) := rfl
        have h3' : env.allocFails (st.next + 1 + 1 + 1) = env.allocFails (st.next + 3) := rfl
        cases h2 : env.allocFails (st.next + 2) <;> cases h3 : env.allocFails (st.next + 3) <;>
          simp [SDL_calloc, newBJoystick, h0, hp, h1, h2, h3, HAIKU_JoystickClose, SDL_free,
            SDL_SetError] at hr <;>
          subst hr <;> dsimp only at hfail ⊢
        · exact absurd hfail (by decide)
        · refine ⟨?_, ⟨_, rfl, ?_⟩, by simp⟩
          · exact nodup_append_fresh _ _ st.next hfresh hnodup (by simp; omega)
              (by intro a ha; simp at ha; omega)
          · intro a ha
            simp only [List.mem_cons, List.mem_singleton, List.not_mem_nil, or_false] at ha
            refine ⟨by omega, by omega, ?_⟩
            rcases ha with rfl | rfl | rfl
            · exact Or.inl rfl
            · exact Or.inr (h2'.trans h2)
            · exact Or.inr h0
        · refine ⟨?_, ⟨_, rfl, ?_⟩, by simp⟩
          · exact nodup_append_fresh _ _ st.next hfresh hnodup (by simp; omega)
              (by intro a ha; simp at ha; omega)
          · intro a ha
            simp only [List.mem_cons, List.mem_singleton, List.not_mem_nil, or_false] at ha
            refine ⟨by omega, by omega, ?_⟩
            rcases ha with rfl | rfl | rfl
            · exact Or.inl rfl
            · exact Or.inr (h3'.trans h3)
            · exact Or.inr h0
        · refine ⟨?_, ⟨_, rfl, ?_⟩, by simp⟩
          · exact nodup_append_fresh _ _ st.next hfresh hnodup (by simp)
              (by intro a ha; simp at ha; omega)
          · intro a ha
            simp only [List.mem_cons, List.mem_singleton, List.not_mem_nil, or_false] at ha
            refine ⟨by omega, by omega, ?_⟩
            rcases ha with rfl | rfl
            · exact Or.inl rfl
            · exact Or.inr h0
  · simp [SDL_calloc, h0] at hr
    subst hr
    exact ⟨hnodup, ⟨[], by simp, by simp⟩, fun _ => ⟨rfl, rfl⟩⟩

/-- C8: for a registry slot, `HAIKU_JoystickOpen` returns, and it reports failure exactly
when the session-record allocation fails, the native open of the slot's stored path fails,
or one of the two scratch-array allocations fails (the call requests blocks `next` for the
record, `next + 1` for the native handle, `next + 2` for the axis array and `next + 3` for
the hat array). On failure no block allocated by the
call stays allocated, the native handle (if created) was closed, and the error slot holds
a message ("Unable to open joystick" for a native open failure, the allocator's message
otherwise). On success the axis, hat and button counts are the native ones, the scratch
arrays hold exactly `naxes` and `nhats` cells, and the device was put in calibrated mode. -/
theorem C8_open (env : Env) (st : State) (joystick : SDL_Joystick) (device_index : Nat)
    (path : Option CString) (hpath : HAIKU_JoystickGetDevicePath st device_index = some path) :
    ∃ r, HAIKU_JoystickOpen env st joystick device_index = some r ∧
      (r.1 = false ↔
        (env.allocFails st.next = true ∨ env.Open (path.map (fun p => p.text)) = false ∨
         env.allocFails (st.next + 2) = true ∨ env.allocFails (st.next + 3) = true)) ∧
      (r.1 = false →
        r.2.2.live = st.live ∧
        (r.2.2.error = some "Unable to open joystick" ∨ r.2.2.error = some env.oomMessage) ∧
        (env.allocFails st.next = false → env.Open (path.map (fun p => p.text)) = false →
          r.2.2.error = some "Unable to open joystick") ∧
        (env.allocFails st.next = false → r.2.2.closed = st.closed ++ [st.next + 1])) ∧
      (r.1 = true →
        r.2.1.naxes = env.CountAxes (path.map (fun p => p.text)) ∧
        r.2.1.nhats = env.CountHats (path.map (fun p => p.text)) ∧
        r.2.1.nbuttons = env.CountButtons (path.map (fun p => p.text)) ∧
        (∃ hw axes hats, r.2.1.hwdata = some hw ∧ hw.new_axes = some axes ∧
          hw.new_hats = some hats ∧ axes.cells.length = r.2.1.naxes ∧
          hats.cells.length = r.2.1.nhats) ∧
        r.2.2.calibrated = st.calibrated ++ [st.next + 1] ∧
        r.2.2.released = st.released) := by
  obtain ⟨r, hr⟩ := Option.isSome_iff_exists.mp
    (HAIKU_JoystickOpen_isSome env st joystick device_index path hpath)
  obtain ⟨hiff, hfail, hok⟩ := HAIKU_JoystickOpen_result env st joystick device_index path hpath r hr
  refine ⟨r, hr, hiff, hfail, fun h => ?_⟩
  obtain ⟨h1, h2, h3, h4, h5, h6⟩ := hok h
  exact ⟨h1, h2, h3, isOpenSession_elim h4, h5, h6⟩

/-- C8 at slot 0 of the sample registry: the open succeeds with counts `(2, 1, 3)`. -/
theorem C8_open_witness :
    HAIKU_JoystickGetDevicePath (HAIKU_JoystickInit sampleEnv sampleState).2 0
      = some (some { addr := 0, text := "a" }) ∧
    (HAIKU_JoystickOpen sampleEnv (HAIKU_JoystickInit sampleEnv sampleState).2 sampleJoystick 0).map
      (fun r => (r.1, r.2.1.naxes, r.2.1.nhats, r.2.1.nbuttons)) = some (true, 2, 1, 3) ∧
    ∃ r, HAIKU_JoystickOpen sampleEnv (HAIKU_JoystickInit sampleEnv sampleState).2
          sampleJoystick 0 = some r ∧
      (r.1 = false ↔
        (sampleEnv.allocFails 4 = true ∨ sampleEnv.Open (some "a") = false ∨
         sampleEnv.allocFails 6 = true ∨ sampleEnv.allocFails 7 = true)) :=
  ⟨rfl, by decide,
   (C8_open sampleEnv (HAIKU_JoystickInit sampleEnv sampleState).2 sampleJoystick 0
      (some { addr := 0, text := "a" }) rfl).imp (fun _ h => ⟨h.1, h.2.1⟩)⟩

/-- C7 as stated fails: when the native open fails, `HAIKU_JoystickOpen` tears the session
down through `HAIKU_JoystickClose` and leaves `hwdata` pointing at the released record; a
subsequent `HAIKU_JoystickClose` releases the native handle (block 5) and the session
record (block 4) a second time. -/
theorem C7_close_after_failed_open_releases_twice :
    ∃ r, HAIKU_JoystickOpen unpluggedEnv (HAIKU_JoystickInit sampleEnv sampleState).2
          sampleJoystick 0 = some r ∧
      r.1 = false ∧
      r.2.2.released = [5, 4] ∧
      (HAIKU_JoystickClose r.2.1 r.2.2).released = [5, 4, 5, 4] ∧
      ¬ (HAIKU_JoystickClose r.2.1 r.2.2).released.Nodup :=
  ⟨_, rfl, rfl, rfl, rfl, by decide⟩

/-- C7, amended: `HAIKU_JoystickClose` is a no-op on a joystick whose session record is
absent; and whenever `HAIKU_JoystickOpen` fails, its own failure path (which runs
`HAIKU_JoystickClose` on the partial session) releases each block at most once, releases
only the native handle and blocks whose allocation succeeded in this call, and, when the
failure was the session-record allocation, leaves `hwdata` null so that a subsequent
`HAIKU_JoystickClose` releases nothing. -/
theorem C7_close_failed_open (env : Env) (st : State) (joystick : SDL_Joystick)
    (device_index : Nat) (hfresh : ∀ a ∈ st.released, a < st.next)
    (hnodup : st.released.Nodup)
    (hfail : (HAIKU_JoystickOpen env st joystick device_index).map (fun r => r.1) = some false) :
    (∀ (j : SDL_Joystick) (s : State), j.hwdata = none → HAIKU_JoystickClose j s = s) ∧
    ∃ r, HAIKU_JoystickOpen env st joystick device_index = some r ∧ r.1 = false ∧
      r.2.2.released.Nodup ∧
      (∃ rel, r.2.2.released = st.released ++ rel ∧
        ∀ a ∈ rel, st.next ≤ a ∧ a < r.2.2.next ∧
          (a = st.next + 1 ∨ env.allocFails a = false)) ∧
      (env.allocFails st.next = true →
        r.2.1.hwdata = none ∧ HAIKU_JoystickClose r.2.1 r.2.2 = r.2.2) := by
  refine ⟨fun j s hj => by simp [HAIKU_JoystickClose, hj], ?_⟩
  cases hr : HAIKU_JoystickOpen env st joystick device_index with
  | none => simp [hr] at hfail
  | some r =>
    have hf : r.1 = false := by simpa [hr] using hfail
    exact ⟨r, rfl, hf,
      HAIKU_JoystickOpen_failed_releases env st joystick device_index r hfresh hnodup hr hf⟩

/-- C7 amended, at two failing opens of slot 0 of the sample registry: a native open
failure (blocks 5 and 4 released once each) and a session-record allocation failure
(nothing released, `hwdata` null). -/
theorem C7_close_failed_open_witness :
    (HAIKU_JoystickOpen unpluggedEnv (HAIKU_JoystickInit sampleEnv sampleState).2
        sampleJoystick 0).map (fun r => (r.1, r.2.2.released)) = some (false, [5, 4]) ∧
    (∃ r, HAIKU_JoystickOpen unpluggedEnv (HAIKU_JoystickInit sampleEnv sampleState).2
          sampleJoystick 0 = some r ∧ r.1 = false ∧ r.2.2.released.Nodup) ∧
    (∃ r, HAIKU_JoystickOpen exhaustedEnv sampleState sampleJoystick 0 = some r ∧
      r.1 = false ∧ r.2.1.hwdata = none ∧ HAIKU_JoystickClose r.2.1 r.2.2 = r.2.2) :=
  ⟨by decide,
   (C7_close_failed_open unpluggedEnv (HAIKU_JoystickInit sampleEnv sampleState).2
      sampleJoystick 0 (by decide) (by decide) (by decide)).2.imp
      (fun _ h => ⟨h.1, h.2.1, h.2.2.1⟩),
   ⟨_, rfl, rfl, rfl, rfl⟩⟩

/-! ## Teardown -/

/-- C5 on the sample machine (two recorded devices): the first `HAIKU_JoystickQuit`
releases all four strings, but `HAIKU_JoystickGetCount` still answers 2 afterwards and
slot 1 still holds its path (block 2, already released); a second `HAIKU_JoystickQuit`
releases blocks 2 and 3 again. -/
theorem C5_quit_keeps_count_and_slots :
    ∃ st2 st3,
      HAIKU_JoystickQuit (HAIKU_JoystickInit sampleEnv sampleState).2 = some st2 ∧
      st2.released = [0, 2, 1, 3] ∧ st2.live = [] ∧
      HAIKU_JoystickGetCount st2 = 2 ∧
      HAIKU_JoystickGetDevicePath st2 0 = some none ∧
      HAIKU_JoystickGetDevicePath st2 1 = some (some { addr := 2, text := "c" }) ∧
      HAIKU_JoystickGetDeviceName st2 1 = some (some { addr := 3, text := "c" }) ∧
      HAIKU_JoystickQuit st2 = some st3 ∧
      st3.released = [0, 2, 1, 3, 2, 3] ∧
      ¬ st3.released.Nodup :=
  ⟨_, _, rfl, rfl, rfl, rfl, rfl, rfl, rfl, rfl, rfl, by decide⟩

end HaikuJoystick
